import Mathlib

/-
Shallow embedding of src/src/one.rs (crate blocking_semaphore).

The semaphore is a boolean flag guarded by a mutex, plus a condition
variable.  Each public operation holds the lock for its whole critical
section, so each critical section is modelled as a pure function of the
guarded boolean.  The condition-variable loop in `wait` is modelled over
the list of guard values the waiter observes at entry and after each
wakeup (spurious or not).  Handle identity (Arc::ptr_eq) is modelled by
an allocation counter.
-/

namespace BSem

/-- The message of the assert in Semaphore::signal. -/
def signalAssertMsg : String := "Signalling a semaphore that is already signalled"

/-- Critical section of Semaphore::signal, run on the guarded flag.
Returns (panic message if the assert fired, flag afterwards, number of
notify_one calls issued).  The assert `assert!(!*guard, ...)` runs before
the write `*guard = true` and before `notify_one`. -/
def signal (guard : Bool) : Option String × Bool × Nat :=
  if guard then (some signalAssertMsg, guard, 0)
  else (none, true, 1)

/-- Critical section of Semaphore::signal_if_needed: unconditionally
`*guard = true` then `notify_one()`, with no assert.  Returns the flag
afterwards and the number of notify_one calls issued. -/
def signal_if_needed (_guard : Bool) : Bool × Nat :=
  (true, 1)

/-- Condvar::wait_while(mtx, |guard| !*guard): keeps blocking while the
predicate `!*guard` holds.  `obs` lists the guard value observed at entry
and after each wakeup; the result is the number of blocking rounds before
a `true` guard is observed, or `none` if the waiter is still blocked after
all listed wakeups. -/
def wait_while : List Bool → Option Nat
  | [] => none
  | g :: rest => if !g then (wait_while rest).map (fun k => k + 1) else some 0

/-- Semaphore::wait: run wait_while, then execute `*g = false` and return.
Result: (number of blocking rounds, flag value left behind on return), or
`none` if the call has not returned yet. -/
def wait (obs : List Bool) : Option (Nat × Bool) :=
  (wait_while obs).map (fun k => (k, false))

/-- A Semaphore handle: a clone of an `Arc<Shared>`.  `coreId` stands for
the address of the shared allocation. -/
structure Semaphore where
  coreId : Nat
deriving DecidableEq

/-- The allocation state: the next fresh address, and the flag stored in
each live shared core. -/
structure World where
  nextId : Nat
  heap : List (Nat × Bool)

/-- Semaphore::new(initially_signaled): a fresh Arc allocation holding the
given initial flag. -/
def Semaphore.new (initially_signaled : Bool) (w : World) : Semaphore × World :=
  (⟨w.nextId⟩, ⟨w.nextId + 1, (w.nextId, initially_signaled) :: w.heap⟩)

/-- impl Default for Semaphore: `Self::new(false)`. -/
def Semaphore.default (w : World) : Semaphore × World :=
  Semaphore.new false w

/-- impl PartialEq for Semaphore: `Arc::ptr_eq(&self.shared, &other.shared)`. -/
def Semaphore.beq (a b : Semaphore) : Bool :=
  a.coreId == b.coreId

/-- impl Hash for Semaphore: `Arc::as_ptr(&self.shared).hash(state)` -- the
hasher input is the allocation address only. -/
def Semaphore.hashVal (a : Semaphore) : Nat :=
  a.coreId

/-- derive(Clone) on Semaphore: clones the Arc, same allocation. -/
def Semaphore.clone (a : Semaphore) : Semaphore := a

/-- Read the flag of the core a handle refers to. -/
def World.stateOf (w : World) (s : Semaphore) : Option Bool :=
  (w.heap.find? (fun p => p.1 == s.coreId)).map (fun p => p.2)

/-- A configuration of one semaphore core under contention: the guarded
flag, how many waiter threads are blocked in wait_while, how many wait
calls have returned, and how many signal calls have completed. -/
structure Config where
  flag : Bool
  blocked : Nat
  done : Nat
  signals : Nat
deriving DecidableEq

/-- Contribution of the flag to the permit count. -/
def flagNat (b : Bool) : Nat := if b then 1 else 0

/-- Interleaved execution of the critical sections of signal and wait on
one core.  The mutex serialises them, so each step is one whole critical
section: a completed signal (assert passes only on an unsignaled flag), a
waiter waking with the flag true (it consumes the permit and returns), or
a spurious wakeup with the flag false (the waiter re-checks and blocks
again, changing nothing). -/
inductive Step : Config → Config → Prop
  | signal (c : Config) (h : c.flag = false) :
      Step c ⟨true, c.blocked, c.done, c.signals + 1⟩
  | wake (c : Config) (h : c.flag = true) (hb : 0 < c.blocked) :
      Step c ⟨false, c.blocked - 1, c.done + 1, c.signals⟩
  | spurious (c : Config) (h : c.flag = false) (hb : 0 < c.blocked) :
      Step c c

/-- Reachability under interleaved steps. -/
def Reach : Config → Config → Prop := Relation.ReflTransGen Step

theorem step_inv {a b : Config} (h : Step a b)
    (ha : a.done + flagNat a.flag ≤ a.signals) :
    b.done + flagNat b.flag ≤ b.signals := by
  cases h with
  | signal hc =>
      simp [flagNat, hc] at ha ⊢
      omega
  | wake hc hb =>
      simp [flagNat, hc] at ha ⊢
      omega
  | spurious hc hb =>
      exact ha

theorem reach_inv {a c : Config} (h : Reach a c)
    (ha : a.done + flagNat a.flag ≤ a.signals) :
    c.done + flagNat c.flag ≤ c.signals := by
  induction h with
  | refl => exact ha
  | tail _ hstep ih => exact step_inv hstep ih

private theorem wait_while_replicate_false (n : Nat) :
    wait_while (List.replicate n false) = none := by
  induction n with
  | zero => rfl
  | succ n ih => simp [List.replicate, wait_while, ih]

/-- C1: signalling an already-signalled semaphore fires the assert, whose
nonempty message is "Signalling a semaphore that is already signalled";
the call panics instead of returning normally. -/
theorem signal_on_signaled_panics :
    (signal true).1 = some signalAssertMsg ∧ 0 < signalAssertMsg.length := by
  refine ⟨rfl, ?_⟩
  decide

/-- C2: signalling an unsignaled semaphore does not panic, sets the flag
to true, issues exactly one notify_one call, and returns normally. -/
theorem signal_on_unsignaled :
    signal false = (none, true, 1) := rfl

/-- C3: wait returns only after observing a true flag (it blocks as long
as every observed value is false), a false observation at a wakeup makes
it block for one more round, and whenever it returns the flag it leaves
behind is false. -/
theorem wait_spec :
    (∀ obs k s, wait obs = some (k, s) → s = false)
  ∧ (∀ rest, wait (false :: rest) = (wait rest).map (fun p => (p.1 + 1, p.2)))
  ∧ (∀ obs, (wait obs).isSome = obs.any (fun b => b)) := by
  refine ⟨?_, ?_, ?_⟩
  · intro obs k s h
    unfold wait at h
    cases hw : wait_while obs with
    | none => rw [hw] at h; simp [Option.map] at h
    | some m =>
        rw [hw] at h
        simp [Option.map] at h
        exact h.2
  · intro rest
    cases hw : wait_while rest with
    | none => simp [wait, wait_while, hw]
    | some m => simp [wait, wait_while, hw]
  · intro obs
    induction obs with
    | nil => rfl
    | cons g rest ih =>
        cases g with
        | false =>
            simp only [wait, wait_while, Bool.not_false, if_true] at *
            simp only [List.any_cons]
            rw [← ih]
            cases hw : wait_while rest <;> simp [hw]
        | true => rfl

/-- C3 witness: at the concrete observation list [true], wait returns with
final flag false. -/
theorem wait_spec_witness : (false : Bool) = false :=
  wait_spec.1 [true] 0 false rfl

/-- C4: signal_if_needed never fails and is idempotent on the flag: after
two consecutive calls from the unsignaled state the flag is exactly true;
one wait then returns at once consuming the single permit and leaving
false, and a further wait on the unsignaled core never returns however
many spurious wakeups it sees. -/
theorem sifn_idempotent :
    (signal_if_needed (signal_if_needed false).1).1 = true
  ∧ wait [(signal_if_needed (signal_if_needed false).1).1] = some (0, false)
  ∧ (∀ n, wait (List.replicate n false) = none) := by
  refine ⟨rfl, rfl, ?_⟩
  intro n
  unfold wait
  rw [wait_while_replicate_false]
  rfl

/-- C5: signal_if_needed issues exactly one notify_one call whatever the
prior flag value: the notification is unconditional, not skipped when the
flag was already true. -/
theorem sifn_always_notifies :
    ∀ s : Bool, (signal_if_needed s).2 = 1 := by
  decide

/-- C6: when the flag is already true at the moment wait is called, wait
returns after zero blocking rounds, consuming the permit (flag false). -/
theorem wait_presignaled (rest : List Bool) :
    wait (true :: rest) = some (0, false) := rfl

/-- C7: starting from an unsignaled core with any number of blocked
waiters, as long as at most one signal has completed, at most one waiter
has been released; the others remain blocked until further signals. -/
theorem signal_releases_at_most_one (n : Nat) (c : Config)
    (h : Reach ⟨false, n, 0, 0⟩ c) (hs : c.signals ≤ 1) : c.done ≤ 1 := by
  have hinv := reach_inv h (by simp [flagNat])
  omega

/-- C7 witness: from two blocked waiters, one signal followed by one wake
reaches a configuration with one released waiter. -/
theorem signal_releases_at_most_one_witness : (1 : Nat) ≤ 1 :=
  signal_releases_at_most_one 2 ⟨false, 1, 1, 1⟩
    (Relation.ReflTransGen.head (Step.signal ⟨false, 2, 0, 0⟩ rfl)
      (Relation.ReflTransGen.single (Step.wake ⟨true, 2, 0, 1⟩ rfl (by decide))))
    (by decide)

/-- C8: handle equality is Arc pointer equality -- true exactly when the
two handles share one core; a clone equals its original; two separate new
calls yield unequal handles even with identical initial flags; and the
hash input is the core address, so equal handles hash equally. -/
theorem identity_equality :
    (∀ a b : Semaphore, Semaphore.beq a b = true ↔ a.coreId = b.coreId)
  ∧ (∀ a : Semaphore, Semaphore.beq (Semaphore.clone a) a = true)
  ∧ (∀ (w : World) (b1 b2 : Bool),
      Semaphore.beq (Semaphore.new b1 w).1 (Semaphore.new b2 (Semaphore.new b1 w).2).1 = false)
  ∧ (∀ a b : Semaphore, Semaphore.beq a b = true → Semaphore.hashVal a = Semaphore.hashVal b) := by
  refine ⟨?_, ?_, ?_, ?_⟩
  · intro a b
    simp [Semaphore.beq]
  · intro a
    simp [Semaphore.beq, Semaphore.clone]
  · intro w b1 b2
    simp [Semaphore.beq, Semaphore.new]
  · intro a b h
    simp [Semaphore.beq] at h
    simp [Semaphore.hashVal, h]

/-- C8 witness: two handles on the same core hash equally. -/
theorem identity_equality_witness :
    Semaphore.hashVal ⟨5⟩ = Semaphore.hashVal ⟨5⟩ :=
  identity_equality.2.2.2 ⟨5⟩ ⟨5⟩ rfl

/-- C9: default() is exactly new(false) in every allocation state, and
the default-constructed semaphore's core holds the flag false. -/
theorem default_is_new_false :
    (∀ w : World, Semaphore.default w = Semaphore.new false w)
  ∧ (∀ w : World, (Semaphore.default w).2.stateOf (Semaphore.default w).1 = some false) := by
  refine ⟨fun w => rfl, ?_⟩
  intro w
  simp [Semaphore.default, Semaphore.new, World.stateOf, List.find?]

/-- C10: whenever the signal critical section panics, the flag is exactly
what it was on entry and no notification has been issued: the assert runs
before any mutation. -/
theorem signal_panic_no_mutation (s : Bool) (h : (signal s).1.isSome = true) :
    (signal s).2.1 = s ∧ (signal s).2.2 = 0 := by
  cases s with
  | false => simp [signal] at h
  | true => simp [signal]

/-- C10 witness: at the signaled flag, the panic leaves the flag true and
issues no notification. -/
theorem signal_panic_no_mutation_witness :
    (signal true).2.1 = true ∧ (signal true).2.2 = 0 :=
  signal_panic_no_mutation true rfl

end BSem
